import Mathlib

/-!
Shallow embedding of src/display/glEvents.h from the jetson-utils repository.

The header declares the user-interface event taxonomy (enum glEventType),
the pressed/released constants, the glEventHandler callback type, and the
glRegisterEvents / glUnregisterEvents prototypes.  Pointers are modelled
abstractly: a user pointer is either null or an address, and a function
pointer is identified by its address (a natural number), since the C code
keys the registry on pointer equality.
-/

namespace GLEvents

/-- An opaque C pointer: NULL or some address.  Models the `void*` user
pointer of the API. -/
inductive Ptr where
  | null : Ptr
  | addr : Nat → Ptr
deriving DecidableEq, Repr

/-- From src/display/glEvents.h line 32: `#define BUTTON_PRESSED 1`. -/
def BUTTON_PRESSED : Int := 1

/-- From src/display/glEvents.h line 39: `#define BUTTON_RELEASED 0`. -/
def BUTTON_RELEASED : Int := 0

/-- From src/display/glEvents.h line 46: `#define KEY_PRESSED 1`. -/
def KEY_PRESSED : Int := 1

/-- From src/display/glEvents.h line 53: `#define KEY_RELEASED 0`. -/
def KEY_RELEASED : Int := 0

/-- From src/display/glEvents.h lines 71-143: `enum glEventType` with the
seven variants in source order.  MOUSE_MOVE is explicitly assigned 0 and
the rest take consecutive values, as C enums do. -/
inductive glEventType where
  | MOUSE_MOVE : glEventType
  | MOUSE_BUTTON : glEventType
  | MOUSE_WHEEL : glEventType
  | KEY_STATE : glEventType
  | KEY_RAW : glEventType
  | KEY_CHAR : glEventType
  | WINDOW_CLOSED : glEventType
deriving DecidableEq, Repr

/-- The integer value each enum variant has in C: MOUSE_MOVE = 0 and the
remaining variants take the consecutive values 1..6 in declaration order. -/
def glEventType.code : glEventType → Nat
  | .MOUSE_MOVE => 0
  | .MOUSE_BUTTON => 1
  | .MOUSE_WHEEL => 2
  | .KEY_STATE => 3
  | .KEY_RAW => 4
  | .KEY_CHAR => 5
  | .WINDOW_CLOSED => 6

/-- Modelled from the spec: the event record delivered by the (hidden)
dispatch routine of the display subsystem.  The dispatch implementation is
not part of the visible header, so events are modelled as a tagged union
whose per-variant payloads follow the documented parameter semantics of
each glEventType variant (coordinates, button id + state, wheel direction,
key symbol + state, character code, or no payload). -/
inductive glEvent where
  | mouseMove (x y : Int) : glEvent
  | mouseButton (button : Int) (down : Bool) : glEvent
  | mouseWheel (scrolledUp : Bool) : glEvent
  | keyState (key : Int) (down : Bool) : glEvent
  | keyRaw (key : Int) (down : Bool) : glEvent
  | keyChar (ch : Int) : glEvent
  | windowClosed : glEvent
deriving DecidableEq, Repr

/-- The glEventType tag carried by an event. -/
def glEvent.eventType : glEvent → glEventType
  | .mouseMove _ _ => .MOUSE_MOVE
  | .mouseButton _ _ => .MOUSE_BUTTON
  | .mouseWheel _ => .MOUSE_WHEEL
  | .keyState _ _ => .KEY_STATE
  | .keyRaw _ _ => .KEY_RAW
  | .keyChar _ => .KEY_CHAR
  | .windowClosed => .WINDOW_CLOSED

/-- Modelled from the spec: the `a` message value of an event, following
the documented semantics in the header.  For MOUSE_WHEEL, a = -1 for
scrolled up, or +1 for scrolled down.  WINDOW_CLOSED has no parameters
(reserved/zero). -/
def glEvent.msgA : glEvent → Int
  | .mouseMove x _ => x
  | .mouseButton button _ => button
  | .mouseWheel scrolledUp => if scrolledUp then -1 else 1
  | .keyState key _ => key
  | .keyRaw key _ => key
  | .keyChar ch => ch
  | .windowClosed => 0

/-- Modelled from the spec: the `b` message value of an event, following
the documented semantics in the header.  For MOUSE_BUTTON it is
BUTTON_PRESSED or BUTTON_RELEASED; for KEY_STATE and KEY_RAW it is
KEY_PRESSED or KEY_RELEASED; for the remaining variants it is unused
(reserved/zero). -/
def glEvent.msgB : glEvent → Int
  | .mouseMove _ y => y
  | .mouseButton _ down => if down then BUTTON_PRESSED else BUTTON_RELEASED
  | .mouseWheel _ => 0
  | .keyState _ down => if down then KEY_PRESSED else KEY_RELEASED
  | .keyRaw _ down => if down then KEY_PRESSED else KEY_RELEASED
  | .keyChar _ => 0
  | .windowClosed => 0

/-- From src/display/glEvents.h line 160:
`typedef bool (*glEventHandler)(uint16_t event, int a, int b, void* user)`.
The uint16_t event code is modelled as a natural number. -/
def glEventHandler : Type := Nat → Int → Int → Ptr → Bool

/-- Written from the words of the spec, for comparison with the source
typedef: callback signature (eventType, a, b, userPointer) → handled
boolean, the event type being passed as its integer code. -/
def specCallbackSignature : Type := Nat → Int → Int → Ptr → Bool

/-- Modelled from the spec: dispatch passes a handler the event type code,
the a and b message values, and the user pointer from registration, and
the handler answers with a boolean (true = handled, false = skipped). -/
def invokeHandler (h : glEventHandler) (e : glEvent) (u : Ptr) : Bool :=
  h e.eventType.code e.msgA e.msgB u

/-- One entry of the event-handler registry: the callback function pointer
(identified by its address), the user pointer, and the display id given at
registration. -/
structure glEventRegistration where
  callback : Nat
  user : Ptr
  display : Nat
deriving DecidableEq, Repr

/-- Modelled from the spec: glRegisterEvents (declared at
src/display/glEvents.h line 170 with defaults user=NULL, display=0) adds a
handler registration for the given display to the registry.  The body is
not in the visible header; the spec says it adds a handler to be invoked
for future events. -/
def glRegisterEvents (st : List glEventRegistration) (c : Nat)
    (u : Ptr := Ptr.null) (d : Nat := 0) : List glEventRegistration :=
  st ++ [⟨c, u, d⟩]

/-- Modelled from the spec: glUnregisterEvents (declared at
src/display/glEvents.h line 179 with default user=NULL) removes the
previously registered handlers matching both the callback function pointer
and the user pointer; removal is keyed by the (callback, user) pair. -/
def glUnregisterEvents (st : List glEventRegistration) (c : Nat)
    (u : Ptr := Ptr.null) : List glEventRegistration :=
  st.filter (fun r => !(r.callback == c && r.user == u))

/-- There is an active registration for the (callback, user) pair. -/
def registeredFor (st : List glEventRegistration) (c : Nat) (u : Ptr) : Prop :=
  ∃ r ∈ st, r.callback = c ∧ r.user = u

lemma mem_glUnregisterEvents (st : List glEventRegistration) (c : Nat)
    (u : Ptr) (r : glEventRegistration) :
    r ∈ glUnregisterEvents st c u ↔
      r ∈ st ∧ ¬(r.callback = c ∧ r.user = u) := by
  simp only [glUnregisterEvents, List.mem_filter, Bool.not_eq_eq_eq_not,
    Bool.not_true, Bool.and_eq_false_imp, beq_iff_eq, beq_eq_false_iff_ne,
    ne_eq, not_and]

lemma not_registeredFor_glUnregisterEvents (st : List glEventRegistration)
    (c : Nat) (u : Ptr) : ¬ registeredFor (glUnregisterEvents st c u) c u := by
  rintro ⟨r, hr, hc, hu⟩
  exact ((mem_glUnregisterEvents st c u r).mp hr).2 ⟨hc, hu⟩

/-- Claim C1: the event type enumeration consists of exactly seven
variants in the fixed order MOUSE_MOVE, MOUSE_BUTTON, MOUSE_WHEEL,
KEY_STATE, KEY_RAW, KEY_CHAR, WINDOW_CLOSED, with MOUSE_MOVE equal to 0
and the variants taking consecutive integer values 0 through 6. -/
theorem glEventType_seven_consecutive_variants :
    [glEventType.MOUSE_MOVE, glEventType.MOUSE_BUTTON, glEventType.MOUSE_WHEEL,
      glEventType.KEY_STATE, glEventType.KEY_RAW, glEventType.KEY_CHAR,
      glEventType.WINDOW_CLOSED].map glEventType.code = [0, 1, 2, 3, 4, 5, 6] ∧
    (∀ t : glEventType,
      t ∈ [glEventType.MOUSE_MOVE, glEventType.MOUSE_BUTTON, glEventType.MOUSE_WHEEL,
        glEventType.KEY_STATE, glEventType.KEY_RAW, glEventType.KEY_CHAR,
        glEventType.WINDOW_CLOSED]) ∧
    Function.Injective glEventType.code := by
  refine ⟨rfl, ?_, ?_⟩
  · intro t
    cases t <;> simp
  · intro a b h
    cases a <;> cases b <;> first | rfl | simp [glEventType.code] at h

/-- Claim C2: the pressed/released constants have the values
BUTTON_PRESSED = 1, BUTTON_RELEASED = 0, KEY_PRESSED = 1,
KEY_RELEASED = 0. -/
theorem pressed_released_constants :
    BUTTON_PRESSED = 1 ∧ BUTTON_RELEASED = 0 ∧
    KEY_PRESSED = 1 ∧ KEY_RELEASED = 0 :=
  ⟨rfl, rfl, rfl, rfl⟩

/-- Claim C3: glUnregisterEvents removes exactly those registrations whose
callback function pointer and user pointer both match its arguments; a
registration differing in either component survives. -/
theorem glUnregisterEvents_removes_exact_pair (st : List glEventRegistration)
    (c : Nat) (u : Ptr) :
    ∀ r : glEventRegistration,
      r ∈ glUnregisterEvents st c u ↔
        r ∈ st ∧ ¬(r.callback = c ∧ r.user = u) :=
  fun r => mem_glUnregisterEvents st c u r

/-- Claim C4: for every registry state, callback and user pointer,
glRegisterEvents followed by glUnregisterEvents on the same
(callback, user) pair leaves no active registration for that pair. -/
theorem register_then_unregister_leaves_none (st : List glEventRegistration)
    (c : Nat) (u : Ptr) (d : Nat) :
    ¬ registeredFor (glUnregisterEvents (glRegisterEvents st c u d) c u) c u :=
  not_registeredFor_glUnregisterEvents (glRegisterEvents st c u d) c u

/-- Claim C5: registering the same callback with two distinct user
pointers yields two independent registrations; unregistering one
(callback, user) pair removes only that registration while the other
remains active, in both directions. -/
theorem distinct_users_independent (st : List glEventRegistration) (c : Nat)
    (u1 u2 : Ptr) (d1 d2 : Nat) (h : u1 ≠ u2) :
    registeredFor (glRegisterEvents (glRegisterEvents st c u1 d1) c u2 d2) c u1 ∧
    registeredFor (glRegisterEvents (glRegisterEvents st c u1 d1) c u2 d2) c u2 ∧
    registeredFor
      (glUnregisterEvents
        (glRegisterEvents (glRegisterEvents st c u1 d1) c u2 d2) c u1) c u2 ∧
    ¬ registeredFor
      (glUnregisterEvents
        (glRegisterEvents (glRegisterEvents st c u1 d1) c u2 d2) c u1) c u1 ∧
    registeredFor
      (glUnregisterEvents
        (glRegisterEvents (glRegisterEvents st c u1 d1) c u2 d2) c u2) c u1 ∧
    ¬ registeredFor
      (glUnregisterEvents
        (glRegisterEvents (glRegisterEvents st c u1 d1) c u2 d2) c u2) c u2 := by
  refine ⟨⟨⟨c, u1, d1⟩, ?_, rfl, rfl⟩, ⟨⟨c, u2, d2⟩, ?_, rfl, rfl⟩,
    ⟨⟨c, u2, d2⟩, ?_, rfl, rfl⟩, not_registeredFor_glUnregisterEvents _ c u1,
    ⟨⟨c, u1, d1⟩, ?_, rfl, rfl⟩, not_registeredFor_glUnregisterEvents _ c u2⟩
  · simp [glRegisterEvents]
  · simp [glRegisterEvents]
  · exact (mem_glUnregisterEvents _ c u1 _).mpr
      ⟨by simp [glRegisterEvents], fun hp => h (hp.2.symm ▸ rfl)⟩
  · exact (mem_glUnregisterEvents _ c u2 _).mpr
      ⟨by simp [glRegisterEvents], fun hp => h (hp.2 ▸ rfl)⟩

/-- Witness for claim C5 at a concrete input: the empty registry, callback
address 0, user pointers NULL and address 1. -/
theorem distinct_users_independent_witness :
    (Ptr.null : Ptr) ≠ Ptr.addr 1 ∧
    (registeredFor (glRegisterEvents (glRegisterEvents [] 0 Ptr.null 0) 0 (Ptr.addr 1) 0) 0 Ptr.null ∧
     registeredFor (glRegisterEvents (glRegisterEvents [] 0 Ptr.null 0) 0 (Ptr.addr 1) 0) 0 (Ptr.addr 1) ∧
     registeredFor
       (glUnregisterEvents
         (glRegisterEvents (glRegisterEvents [] 0 Ptr.null 0) 0 (Ptr.addr 1) 0) 0 Ptr.null) 0 (Ptr.addr 1) ∧
     ¬ registeredFor
       (glUnregisterEvents
         (glRegisterEvents (glRegisterEvents [] 0 Ptr.null 0) 0 (Ptr.addr 1) 0) 0 Ptr.null) 0 Ptr.null ∧
     registeredFor
       (glUnregisterEvents
         (glRegisterEvents (glRegisterEvents [] 0 Ptr.null 0) 0 (Ptr.addr 1) 0) 0 (Ptr.addr 1)) 0 Ptr.null ∧
     ¬ registeredFor
       (glUnregisterEvents
         (glRegisterEvents (glRegisterEvents [] 0 Ptr.null 0) 0 (Ptr.addr 1) 0) 0 (Ptr.addr 1)) 0 (Ptr.addr 1)) :=
  ⟨by decide, distinct_users_independent [] 0 Ptr.null (Ptr.addr 1) 0 0 (by decide)⟩

/-- Claim C6: every event carries one of the seven enumerated type codes,
and whenever the type is MOUSE_BUTTON, KEY_STATE or KEY_RAW the state
parameter b equals 1 (pressed) or 0 (released). -/
theorem event_type_and_state_invariant (e : glEvent) :
    e.eventType.code < 7 ∧
    ((e.eventType = glEventType.MOUSE_BUTTON ∨
      e.eventType = glEventType.KEY_STATE ∨
      e.eventType = glEventType.KEY_RAW) →
      (e.msgB = 1 ∨ e.msgB = 0)) := by
  cases e <;>
    simp_all [glEvent.eventType, glEvent.msgB, glEventType.code,
      KEY_PRESSED, KEY_RELEASED, BUTTON_PRESSED, BUTTON_RELEASED]

/-- Witness for claim C6 at a concrete event: a press of mouse button 1. -/
theorem event_type_and_state_invariant_witness :
    (glEvent.mouseButton 1 true).eventType.code < 7 ∧
    (((glEvent.mouseButton 1 true).eventType = glEventType.MOUSE_BUTTON ∨
      (glEvent.mouseButton 1 true).eventType = glEventType.KEY_STATE ∨
      (glEvent.mouseButton 1 true).eventType = glEventType.KEY_RAW) →
      ((glEvent.mouseButton 1 true).msgB = 1 ∨
       (glEvent.mouseButton 1 true).msgB = 0)) :=
  event_type_and_state_invariant (glEvent.mouseButton 1 true)

/-- Claim C7: an event of type WINDOW_CLOSED carries no payload: its a and
b message values are zero. -/
theorem windowClosed_zero_payload (e : glEvent)
    (h : e.eventType = glEventType.WINDOW_CLOSED) :
    e.msgA = 0 ∧ e.msgB = 0 := by
  cases e <;> simp_all [glEvent.eventType, glEvent.msgA, glEvent.msgB]

/-- Witness for claim C7 at the concrete WINDOW_CLOSED event. -/
theorem windowClosed_zero_payload_witness :
    glEvent.windowClosed.msgA = 0 ∧ glEvent.windowClosed.msgB = 0 :=
  windowClosed_zero_payload glEvent.windowClosed rfl

/-- Claim C8: the handler callback type takes exactly the four parameters
(event type code, a, b, user pointer) and returns a boolean; dispatch
invokes a handler on exactly those four components of an event, and the
result is the handled/skipped boolean. -/
theorem handler_signature_four_params :
    glEventHandler = specCallbackSignature ∧
    ∀ (h : glEventHandler) (e : glEvent) (u : Ptr),
      invokeHandler h e u = h e.eventType.code e.msgA e.msgB u ∧
      (invokeHandler h e u = true ∨ invokeHandler h e u = false) :=
  ⟨rfl, fun h e u => ⟨rfl, Bool.eq_false_or_eq_true (invokeHandler h e u)⟩⟩

/-- Claim C9: the user pointer parameter defaults to NULL in both
glRegisterEvents and glUnregisterEvents, and the display parameter of
glRegisterEvents defaults to 0: calls omitting them equal calls passing
NULL and 0 explicitly. -/
theorem register_unregister_defaults (st : List glEventRegistration) (c : Nat) :
    glRegisterEvents st c = glRegisterEvents st c Ptr.null 0 ∧
    glUnregisterEvents st c = glUnregisterEvents st c Ptr.null :=
  ⟨rfl, rfl⟩

/-- Claim C10: an event of type MOUSE_WHEEL has a = -1 or a = +1, with
a = -1 exactly when the wheel was scrolled up (so +1 means scrolled down),
and its b value is unused (zero). -/
theorem mouseWheel_payload (e : glEvent)
    (h : e.eventType = glEventType.MOUSE_WHEEL) :
    (e.msgA = -1 ∨ e.msgA = 1) ∧
    (e.msgA = -1 ↔ e = glEvent.mouseWheel true) ∧
    e.msgB = 0 := by
  cases e <;> simp_all [glEvent.eventType, glEvent.msgA, glEvent.msgB]

/-- Witness for claim C10 at the concrete scrolled-up wheel event. -/
theorem mouseWheel_payload_witness :
    ((glEvent.mouseWheel true).msgA = -1 ∨ (glEvent.mouseWheel true).msgA = 1) ∧
    ((glEvent.mouseWheel true).msgA = -1 ↔
      glEvent.mouseWheel true = glEvent.mouseWheel true) ∧
    (glEvent.mouseWheel true).msgB = 0 :=
  mouseWheel_payload (glEvent.mouseWheel true) rfl

end GLEvents
